import Mathlib

/-!
# Verification of the SwapKit thorchain/mayachain base plugin

Shallow embedding of `src/packages/plugins/thorchain/src/basePlugin.ts`.

The plugin is orchestration glue: it resolves inbound routing data, builds
memos via helper functions and dispatches through a caller-supplied `deposit`
primitive.  We embed it as pure Lean functions over an explicit environment
(`Env`) holding the inbound routing table, the mimir halt flags, the wallet
map and the behaviour of the deposit primitive.  Every operation returns the
result (`Except JsError α`, mirroring promise resolution/rejection) together
with an effect log (`Log`) recording API fetches, wallet-capability calls and
the deposit calls that were dispatched, in order.

JavaScript numbers are modelled as `ℚ`; base-unit amounts as `Int`; strings
of the source stay `String` except memos, which the source builds through
external helper functions and treats as opaque — we model the helper results
structurally (inductive `Memo`) so that what a memo encodes is visible.
-/

set_option autoImplicit false

namespace SwapKit

/-- Chains, a representative subset of the `Chain` enum from `@swapkit/helpers`
(the enum itself is outside `src/`).  `ETH`, `AVAX` and `BSC` stand for the
EVM chains; `BTC`, `DOGE` and `GAIA` for non-EVM ones. -/
inductive Chain where
  | THORChain
  | Maya
  | ETH
  | AVAX
  | BSC
  | BTC
  | DOGE
  | GAIA
  deriving DecidableEq, Repr

/-- Modelled from the spec: the list of EVM-style chains (`EVMChains` in
`@swapkit/helpers`, outside `src/`). -/
def EVMChains : List Chain :=
  [Chain.ETH, Chain.AVAX, Chain.BSC]

/-- `FeeOption` enum. -/
inductive FeeOption where
  | Average
  | Fast
  | Fastest
  deriving DecidableEq, Repr

/-- `MemoType` members used by `nodeAction` (bond / unbond / leave). -/
inductive MemoType where
  | BOND
  | UNBOND
  | LEAVE
  deriving DecidableEq, Repr

/-- `ApproveMode` enum: `checkOnly` or `approve`. -/
inductive ApproveMode where
  | checkOnly
  | approveM
  deriving DecidableEq, Repr

/-- The `"sym" | "baseAsset" | "asset"` mode strings used by `addLiquidity`
and by `withdraw`'s `from`/`to` parameters. -/
inductive LiquiditySide where
  | sym
  | baseAsset
  | asset
  deriving DecidableEq, Repr

/-- The `"add" | "withdraw"` type strings of `savings`. -/
inductive SavingsType where
  | add
  | withdrawS
  deriving DecidableEq, Repr

/-- `AssetValue` (external value type): an amount tied to a chain, with the
fields the plugin reads.  `bigintValue` is the base-unit amount
(`getBaseValue("bigint" | "number")`); comparisons `gt(0)` / `lte(0)` are on
the amount.  `address` is the on-chain contract address, `""` standing for a
missing (`undefined` or empty) address, both falsy in the source. -/
structure AssetValue where
  chain : Chain
  symbol : String
  ticker : String
  address : String
  isGasAsset : Bool
  isSynthetic : Bool
  bigintValue : Int
  deriving DecidableEq, Repr

/-- One entry of the inbound-address routing table returned by
`SwapKitApi.getInboundAddresses`. -/
structure InboundAddressData where
  chain : Chain
  gas_rate : Option String
  router : String
  address : String
  halted : Bool
  deriving DecidableEq, Repr

/-- Mimir halt flags returned by `SwapKitApi.getMimirInfo`. -/
structure MimirInfo where
  HALTCHAINGLOBAL : Int
  HALTTHORCHAIN : Int
  deriving DecidableEq, Repr

/-- Memos.  The source builds memo strings through the `getMemoFor*` helpers
of `@swapkit/helpers` (outside `src/`, opaque fixed format per the spec); we
represent each helper's result structurally, plus `raw` for caller-supplied
memo strings. -/
inductive Memo where
  | deposit (chain : Chain) (symbol : String) (address : String)
  | leaveAndBond (ty : MemoType) (address : String)
  | unbond (address : String) (unbondAmount : Int)
  | saverDeposit (symbol : String) (chain : Chain)
  | saverWithdraw (basisPoints : Int) (symbol : String) (chain : Chain)
  | withdrawMemo (symbol : String) (chain : Chain) (ticker : String)
      (basisPoints : Int) (targetAsset : Option String)
  | raw (s : String)
  deriving DecidableEq, Repr

/-- Modelled from the spec: memo builder `getMemoForDeposit({chain, symbol, address})`. -/
def getMemoForDeposit (chain : Chain) (symbol : String) (address : String) : Memo :=
  Memo.deposit chain symbol address

/-- Modelled from the spec: memo builder `getMemoForLeaveAndBond({type, address})`. -/
def getMemoForLeaveAndBond (ty : MemoType) (address : String) : Memo :=
  Memo.leaveAndBond ty address

/-- Modelled from the spec: memo builder `getMemoForUnbond({address, unbondAmount})`. -/
def getMemoForUnbond (address : String) (unbondAmount : Int) : Memo :=
  Memo.unbond address unbondAmount

/-- Modelled from the spec: memo builder `getMemoForSaverDeposit({symbol, chain})`. -/
def getMemoForSaverDeposit (symbol : String) (chain : Chain) : Memo :=
  Memo.saverDeposit symbol chain

/-- Modelled from the spec: memo builder `getMemoForSaverWithdraw({basisPoints, symbol, chain})`. -/
def getMemoForSaverWithdraw (basisPoints : Int) (symbol : String) (chain : Chain) : Memo :=
  Memo.saverWithdraw basisPoints symbol chain

/-- Modelled from the spec: memo builder
`getMemoForWithdraw({symbol, chain, ticker, basisPoints, targetAsset})`. -/
def getMemoForWithdraw (symbol : String) (chain : Chain) (ticker : String)
    (basisPoints : Int) (targetAsset : Option String) : Memo :=
  Memo.withdrawMemo symbol chain ticker basisPoints targetAsset

/-- Errors.  `swapKit key` is `new SwapKitError(key)`; `wrapped key cause` is
the re-tagged error produced by `wrapWithThrow`; `external` is any error
thrown by an external collaborator (e.g. the deposit primitive). -/
inductive JsError where
  | swapKit (key : String)
  | wrapped (key : String) (cause : JsError)
  | external (msg : String)
  deriving DecidableEq, Repr

/-- One call to the caller-supplied `deposit` primitive: the arguments of
`deposit({assetValue, recipient, memo, router?, feeRate?})`.  `router = none`
and `feeRate = none` mean the field was not passed; `feeRate = some none`
means the JavaScript number was `NaN` (a gas-rate string with no digits). -/
structure DepositCall where
  assetValue : AssetValue
  recipient : String
  memo : Memo
  router : Option String
  feeRate : Option (Option ℚ)
  deriving DecidableEq, Repr

/-- Effect log of one operation: how many `getInboundAddresses` and
`getMimirInfo` API fetches happened, how many wallet capabilities were
invoked, and the deposit calls dispatched, in order. -/
structure Log where
  inboundFetches : Nat := 0
  mimirFetches : Nat := 0
  walletCalls : Nat := 0
  deposits : List DepositCall := []
  deriving DecidableEq, Repr

/-- Sequential composition of effect logs. -/
def Log.app (a b : Log) : Log :=
  { inboundFetches := a.inboundFetches + b.inboundFetches
    mimirFetches := a.mimirFetches + b.mimirFetches
    walletCalls := a.walletCalls + b.walletCalls
    deposits := a.deposits ++ b.deposits }

/-- Arguments of a wallet `approve`/`isApproved` capability call. -/
structure WalletCallParams where
  amount : Int
  assetAddress : String
  fromAddress : String
  spenderAddress : String

/-- Result of `approve`: `ApproveReturnType<T>` is `boolean` for `checkOnly`
and `string` for `approve`. -/
inductive ApproveResult where
  | bool (b : Bool)
  | str (s : String)
  deriving DecidableEq, Repr

/-- A per-chain wallet handle with its optional capabilities
(`isApproved` returns a boolean, `approve` a transaction hash). -/
structure WalletMethods where
  address : String
  isApproved : Option (WalletCallParams → Except JsError Bool)
  approve : Option (WalletCallParams → Except JsError String)

/-- The environment of one plugin instance: the `basePlugin` construction
arguments plus the behaviour of the external collaborators (routing table,
mimir flags, deposit primitive). -/
structure Env where
  stagenet : Bool
  pluginChain : Chain
  wallets : Chain → Option WalletMethods
  depositImpl : DepositCall → Except JsError String
  inboundTable : List InboundAddressData
  mimir : MimirInfo

/-- `const type = pluginChain === Chain.Maya ? "mayachain" : "thorchain"`. -/
def Env.pluginType (env : Env) : String :=
  if env.pluginChain = Chain.Maya then "mayachain" else "thorchain"

/-- Digit accumulator of `jsParseInt`: consume leading decimal digits. -/
def digitsAcc : List Char → Nat → Nat
  | [], acc => acc
  | c :: cs, acc => if c.isDigit then digitsAcc cs (acc * 10 + (c.toNat - 48)) else acc

/-- Leading digit run of `jsParseInt`; `none` when the first character is not
a digit (`NaN`). -/
def parseDigits : List Char → Option Nat
  | [] => none
  | c :: cs => if c.isDigit then some (digitsAcc cs (c.toNat - 48)) else none

/-- `Number.parseInt` on a character list: skip leading whitespace, optional
sign, then the leading digit run; `none` models `NaN`. -/
def jsParseIntChars : List Char → Option Int
  | [] => none
  | c :: cs =>
    if c.isWhitespace then jsParseIntChars cs
    else if c = '-' then (parseDigits cs).map (fun n => -(n : Int))
    else if c = '+' then (parseDigits cs).map (fun n => (n : Int))
    else (parseDigits (c :: cs)).map (fun n => (n : Int))

/-- `Number.parseInt(s)` in base 10; `none` models `NaN`. -/
def jsParseInt (s : String) : Option Int :=
  jsParseIntChars s.data

/-- `Math.round`: round half towards positive infinity. -/
def jsRound (x : ℚ) : Int :=
  ⌊x + 1 / 2⌋

/-- `gasFeeMultiplier`: {Average: 1.2, Fast: 1.5, Fastest: 2}. -/
def gasFeeMultiplier : FeeOption → ℚ
  | FeeOption.Average => 6 / 5
  | FeeOption.Fast => 3 / 2
  | FeeOption.Fastest => 2

/-- Modelled from the spec: `getMinAmountByChain` of `@swapkit/helpers`
(outside `src/`) — the chain's defined minimum transferable (dust) amount, as
an `AssetValue` of that chain's gas asset. -/
def getMinAmountByChain (chain : Chain) : AssetValue :=
  { chain := chain
    symbol := "NATIVE"
    ticker := "NATIVE"
    address := ""
    isGasAsset := true
    isSynthetic := false
    bigintValue := 1 }

/-- Modelled from the spec: `getAddress(wallets, chain)` of `./shared`
(outside `src/`) — the connected wallet's address for the chain, `""` when no
wallet is connected. -/
def getAddress (wallets : Chain → Option WalletMethods) (chain : Chain) : String :=
  ((wallets chain).map WalletMethods.address).getD ""

/-- Modelled from the spec: `AssetValue.from({chain})` — the chain's native
gas asset with zero amount. -/
def AssetValue.fromChain (chain : Chain) : AssetValue :=
  { chain := chain
    symbol := "NATIVE"
    ticker := "NATIVE"
    address := ""
    isGasAsset := true
    isSynthetic := false
    bigintValue := 0 }

/-- Name of a chain as it appears in asset strings. -/
def Chain.name : Chain → String
  | Chain.THORChain => "THOR"
  | Chain.Maya => "MAYA"
  | Chain.ETH => "ETH"
  | Chain.AVAX => "AVAX"
  | Chain.BSC => "BSC"
  | Chain.BTC => "BTC"
  | Chain.DOGE => "DOGE"
  | Chain.GAIA => "GAIA"

/-- Modelled from the spec: `assetValue.toString()` — the `CHAIN.SYMBOL`
asset string. -/
def AssetValue.toString (a : AssetValue) : String :=
  a.chain.name ++ "." ++ a.symbol

/-- `getInboundDataByChain` (from `getInboundDataFunction`): short-circuit to
a synthetic record for the plugin's own chain, otherwise fetch the inbound
table, select the matching entry, fail on a missing or halted entry. -/
def getInboundDataByChain (env : Env) (chain : Chain) :
    Except JsError InboundAddressData × Log :=
  if (env.pluginType = "thorchain" ∧ chain = Chain.THORChain) ∨
      (env.pluginType = "mayachain" ∧ chain = Chain.Maya) then
    (Except.ok { gas_rate := some "0", router := "", address := "", halted := false,
                 chain := chain }, {})
  else
    match env.inboundTable.find? (fun item => item.chain == chain) with
    | none => (Except.error (JsError.swapKit "core_inbound_data_not_found"),
               { inboundFetches := 1 })
    | some chainAddressData =>
      if chainAddressData.halted then
        (Except.error (JsError.swapKit "core_chain_halted"), { inboundFetches := 1 })
      else
        (Except.ok chainAddressData, { inboundFetches := 1 })

/-- Modelled from the spec: `wrapWithThrow(fn, key)` of `@swapkit/helpers`
(outside `src/`) — re-tag a failure of `fn` with the error key `key`,
preserving the underlying cause; pass a success through unchanged. -/
def wrapWithThrow {α : Type} (x : Except JsError α × Log) (key : String) :
    Except JsError α × Log :=
  match x with
  | (Except.error e, l) => (Except.error (JsError.wrapped key e), l)
  | (Except.ok a, l) => (Except.ok a, l)

/-- `approve`: resolve the router via the inbound route, short-circuit for
native-EVM / non-EVM / synthetic assets, otherwise look up and invoke the
wallet capability selected by the mode. -/
def approve (env : Env) (ty : ApproveMode) (assetValue : AssetValue) :
    Except JsError ApproveResult × Log :=
  match getInboundDataByChain env assetValue.chain with
  | (Except.error e, l) => (Except.error e, l)
  | (Except.ok inbound, l) =>
    let router := inbound.router
    let isEVMChain := EVMChains.contains assetValue.chain
    let isNativeEVM := isEVMChain && assetValue.isGasAsset
    if isNativeEVM || !isEVMChain || assetValue.isSynthetic then
      (Except.ok (if ty = ApproveMode.checkOnly then ApproveResult.bool true
                  else ApproveResult.str "approved"), l)
    else
      let walletMethods := env.wallets assetValue.chain
      let walletAction : Option (WalletCallParams → Except JsError ApproveResult) :=
        match ty with
        | ApproveMode.checkOnly =>
          (walletMethods.bind WalletMethods.isApproved).map
            (fun f p => (f p).map ApproveResult.bool)
        | ApproveMode.approveM =>
          (walletMethods.bind WalletMethods.approve).map
            (fun f p => (f p).map ApproveResult.str)
      match walletAction with
      | none => (Except.error (JsError.swapKit "core_wallet_connection_not_found"), l)
      | some act =>
        let fromAddress := (walletMethods.map WalletMethods.address).getD ""
        if assetValue.address = "" ∨ fromAddress = "" then
          (Except.error (JsError.swapKit "core_approve_asset_address_or_from_not_found"), l)
        else
          (act { amount := assetValue.bigintValue
                 assetAddress := assetValue.address
                 fromAddress := fromAddress
                 spenderAddress := router },
           Log.app l { walletCalls := 1 })

/-- `depositToProtocol`: fetch the mimir flags, fail when trading is halted,
otherwise call `deposit` with empty recipient and no router/fee rate. -/
def depositToProtocol (env : Env) (assetValue : AssetValue) (memo : Memo) :
    Except JsError String × Log :=
  if env.mimir.HALTCHAINGLOBAL ≥ 1 ∨ env.mimir.HALTTHORCHAIN ≥ 1 then
    (Except.error (JsError.swapKit "thorchain_chain_halted"), { mimirFetches := 1 })
  else
    let c : DepositCall :=
      { assetValue := assetValue, recipient := "", memo := memo,
        router := none, feeRate := none }
    (env.depositImpl c, { mimirFetches := 1, deposits := [c] })

/-- `depositToPool`: resolve the inbound route for the asset's chain, then
call `deposit` with the pool inbound address as recipient, the route's
router, and fee rate `Number.parseInt(gas_rate) * gasFeeMultiplier[key]`. -/
def depositToPool (env : Env) (assetValue : AssetValue) (memo : Memo)
    (feeOptionKey : FeeOption := FeeOption.Fast) :
    Except JsError String × Log :=
  match getInboundDataByChain env assetValue.chain with
  | (Except.error e, l) => (Except.error e, l)
  | (Except.ok inbound, l) =>
    let gas_rate := inbound.gas_rate.getD "0"
    let c : DepositCall :=
      { assetValue := assetValue
        recipient := inbound.address
        memo := memo
        router := some inbound.router
        feeRate := some ((jsParseInt gas_rate).map
          (fun (n : ℤ) => (n : ℚ) * gasFeeMultiplier feeOptionKey)) }
    (env.depositImpl c, Log.app l { deposits := [c] })

/-- `nodeAction`: unbond memos carry the address and the numeric base-unit
amount; bond transfers the real asset value, unbond/leave transfer the
protocol chain's minimum amount.  Delegates to `depositToProtocol`. -/
def nodeAction (env : Env) (ty : MemoType) (assetValue : AssetValue)
    (address : String) : Except JsError String × Log :=
  let memo :=
    if ty = MemoType.UNBOND then
      getMemoForUnbond address assetValue.bigintValue
    else
      getMemoForLeaveAndBond ty address
  let assetToTransfer :=
    if ty = MemoType.BOND then assetValue else getMinAmountByChain env.pluginChain
  depositToProtocol env assetToTransfer memo

/-- `createLiquidity`: both values must be strictly positive; two sequential
pool deposits, each wrapped with a leg-specific error tag. -/
def createLiquidity (env : Env) (baseAssetValue assetValue : AssetValue) :
    Except JsError (String × String) × Log :=
  if baseAssetValue.bigintValue ≤ 0 ∨ assetValue.bigintValue ≤ 0 then
    (Except.error (JsError.swapKit "core_transaction_create_liquidity_invalid_params"), {})
  else
    let assetAddress := getAddress env.wallets assetValue.chain
    let baseAssetAddress := getAddress env.wallets env.pluginChain
    match wrapWithThrow
        (depositToPool env baseAssetValue
          (getMemoForDeposit assetValue.chain assetValue.symbol assetAddress))
        "core_transaction_create_liquidity_base_error" with
    | (Except.error e, l) => (Except.error e, l)
    | (Except.ok baseAssetTx, l) =>
      match wrapWithThrow
          (depositToPool env assetValue
            (getMemoForDeposit assetValue.chain assetValue.symbol baseAssetAddress))
          "core_transaction_create_liquidity_asset_error" with
      | (Except.error e, l2) => (Except.error e, Log.app l l2)
      | (Except.ok assetTx, l2) => (Except.ok (baseAssetTx, assetTx), Log.app l l2)

/-- Parameters of `addLiquidity`.  `baseAssetValue` is optional in the source
(`baseAssetValue?.gt(0)`); `baseAssetAddr`/`assetAddr` are optional strings
with `""` standing for missing; `mode` defaults to `"sym"`. -/
structure AddLiquidityParams where
  baseAssetValue : Option AssetValue
  assetValue : AssetValue
  baseAssetAddr : String := ""
  assetAddr : String := ""
  isPendingSymmAsset : Bool := false
  mode : LiquiditySide := LiquiditySide.sym

/-- `addLiquidity`: derive the active legs from the mode and the amounts,
validate, then run each active leg as a sequential wrapped pool deposit. -/
def addLiquidity (env : Env) (p : AddLiquidityParams) :
    Except JsError (Option String × Option String) × Log :=
  let chain := p.assetValue.chain
  let symbol := p.assetValue.symbol
  let isSym : Bool := decide (p.mode = LiquiditySide.sym)
  let baseTransfer : Bool :=
    (p.baseAssetValue.map (fun v => decide (v.bigintValue > 0))).getD false &&
    (isSym || decide (p.mode = LiquiditySide.baseAsset))
  let assetTransfer : Bool :=
    decide (p.assetValue.bigintValue > 0) &&
    (isSym || decide (p.mode = LiquiditySide.asset))
  let includeBaseAddress := p.isPendingSymmAsset || baseTransfer
  let baseAssetWalletAddress := getAddress env.wallets env.pluginChain
  let baseAddress :=
    if includeBaseAddress then
      if p.baseAssetAddr = "" then baseAssetWalletAddress else p.baseAssetAddr
    else ""
  let assetAddress :=
    if isSym || decide (p.mode = LiquiditySide.asset) then
      if p.assetAddr = "" then getAddress env.wallets chain else p.assetAddr
    else ""
  if !(baseTransfer || assetTransfer) then
    (Except.error (JsError.swapKit "core_transaction_add_liquidity_invalid_params"), {})
  else if includeBaseAddress && baseAddress = "" then
    (Except.error (JsError.swapKit "core_transaction_add_liquidity_base_address"), {})
  else
    let baseLeg : Except JsError (Option String) × Log :=
      match p.baseAssetValue, baseTransfer with
      | some v, true =>
        let r := wrapWithThrow
          (depositToPool env v (getMemoForDeposit chain symbol assetAddress))
          "core_transaction_add_liquidity_base_error"
        (r.1.map Option.some, r.2)
      | _, _ => (Except.ok Option.none, {})
    match baseLeg with
    | (Except.error e, l) => (Except.error e, l)
    | (Except.ok baseAssetTx, l) =>
      let assetLeg : Except JsError (Option String) × Log :=
        if assetTransfer then
          let r := wrapWithThrow
            (depositToPool env p.assetValue
              (getMemoForDeposit chain symbol baseAddress))
            "core_transaction_add_liquidity_asset_error"
          (r.1.map Option.some, r.2)
        else (Except.ok Option.none, {})
      match assetLeg with
      | (Except.error e, l2) => (Except.error e, Log.app l l2)
      | (Except.ok assetTx, l2) => (Except.ok (baseAssetTx, assetTx), Log.app l l2)

/-- Parameters of `savings`; `memo = none` models an absent/empty memo
override, `ty` the `"add" | "withdraw"` type. -/
structure SavingsParams where
  assetValue : AssetValue
  memo : Option Memo := none
  percent : ℚ
  ty : SavingsType

/-- `savings`: saver deposit/withdraw memo (withdraw clamps percent to at
most 10000 basis points); deposit value is the real asset for add and the
chain's minimum amount for withdraw. -/
def savings (env : Env) (p : SavingsParams) : Except JsError String × Log :=
  let chain := p.assetValue.chain
  let symbol := p.assetValue.symbol
  let isDeposit := p.ty = SavingsType.add
  let memoString :=
    if isDeposit then getMemoForSaverDeposit symbol chain
    else getMemoForSaverWithdraw (min 10000 (jsRound (p.percent * 100))) symbol chain
  depositToPool env (if isDeposit then p.assetValue else getMinAmountByChain chain)
    (p.memo.getD memoString)

/-- Parameters of `withdraw`; `fromSide`/`toSide` are the `from`/`to`
position kinds, `memo = none` an absent/empty memo override. -/
structure WithdrawParams where
  memo : Option Memo := none
  assetValue : AssetValue
  percent : ℚ
  fromSide : LiquiditySide
  toSide : LiquiditySide

/-- `withdraw`: select the target asset for the memo from `from`/`to`,
transfer the chain-appropriate minimum amount, clamp basis points. -/
def withdraw (env : Env) (p : WithdrawParams) : Except JsError String × Log :=
  let targetAsset : Option AssetValue :=
    if p.toSide = LiquiditySide.baseAsset ∧ p.fromSide ≠ LiquiditySide.baseAsset then
      some (AssetValue.fromChain env.pluginChain)
    else if (p.fromSide = LiquiditySide.sym ∧ p.toSide = LiquiditySide.sym) ∨
        p.fromSide = LiquiditySide.baseAsset ∨ p.fromSide = LiquiditySide.asset then
      none
    else
      some p.assetValue
  let value := getMinAmountByChain
    (if p.fromSide = LiquiditySide.asset then p.assetValue.chain else env.pluginChain)
  let memoString :=
    p.memo.getD
      (getMemoForWithdraw p.assetValue.symbol p.assetValue.chain p.assetValue.ticker
        (min 10000 (jsRound (p.percent * 100)))
        (targetAsset.map AssetValue.toString))
  depositToPool env value memoString

/-! ## Concrete instances used by witnesses -/

/-- A BTC inbound-route entry with gas rate `"10"`. -/
def btcEntry : InboundAddressData :=
  { chain := Chain.BTC, gas_rate := some "10", router := "routerBTC",
    address := "bc1pool", halted := false }

/-- A halted BTC inbound-route entry. -/
def btcHaltedEntry : InboundAddressData :=
  { chain := Chain.BTC, gas_rate := some "10", router := "routerBTC",
    address := "bc1pool", halted := true }

/-- A gas-native BTC asset value. -/
def btcA : AssetValue :=
  { chain := Chain.BTC, symbol := "BTC", ticker := "BTC", address := "",
    isGasAsset := true, isSynthetic := false, bigintValue := 50 }

/-- A RUNE asset value on the plugin chain. -/
def runeA : AssetValue :=
  { chain := Chain.THORChain, symbol := "RUNE", ticker := "RUNE", address := "",
    isGasAsset := true, isSynthetic := false, bigintValue := 100 }

/-- A THORChain plugin environment whose routing table has one healthy BTC
entry, no wallets, and an always-succeeding deposit primitive. -/
def env0 : Env :=
  { stagenet := false, pluginChain := Chain.THORChain,
    wallets := fun _ => none,
    depositImpl := fun _ => Except.ok "tx",
    inboundTable := [btcEntry],
    mimir := { HALTCHAINGLOBAL := 0, HALTTHORCHAIN := 0 } }

/-- Like `env0` but with the BTC route halted. -/
def envHalted : Env :=
  { env0 with inboundTable := [btcHaltedEntry] }

/-- Like `env0` but with an empty routing table. -/
def envEmpty : Env :=
  { env0 with inboundTable := [] }

/-- Like `env0` but the deposit primitive throws on the RUNE leg. -/
def envFailBase : Env :=
  { env0 with depositImpl := fun c =>
      if c.assetValue = runeA then Except.error (JsError.external "boom")
      else Except.ok "tx" }

/-- Like `env0` but the deposit primitive throws on the BTC leg. -/
def envFailAsset : Env :=
  { env0 with depositImpl := fun c =>
      if c.assetValue = btcA then Except.error (JsError.external "boom2")
      else Except.ok "txB" }

/-! ## Helper lemmas -/

/-- For a plugin chain that is THORChain or Maya, the self-routing
short-circuit condition of `getInboundDataByChain` holds exactly for the
plugin's own chain. -/
theorem selfRoute_cond_iff (env : Env) (chain : Chain)
    (hplug : env.pluginChain = Chain.Maya ∨ env.pluginChain = Chain.THORChain) :
    ((env.pluginType = "thorchain" ∧ chain = Chain.THORChain) ∨
      (env.pluginType = "mayachain" ∧ chain = Chain.Maya)) ↔
      chain = env.pluginChain := by
  rcases hplug with h | h <;> simp [Env.pluginType, h]

/-- On a chain different from the plugin chain, `getInboundDataByChain`
takes the fetch-and-select path. -/
theorem getInboundDataByChain_not_self (env : Env) (chain : Chain)
    (hplug : env.pluginChain = Chain.Maya ∨ env.pluginChain = Chain.THORChain)
    (hne : chain ≠ env.pluginChain) :
    getInboundDataByChain env chain =
      (match env.inboundTable.find? (fun item => item.chain == chain) with
       | none => (Except.error (JsError.swapKit "core_inbound_data_not_found"),
                  { inboundFetches := 1 })
       | some chainAddressData =>
         if chainAddressData.halted then
           (Except.error (JsError.swapKit "core_chain_halted"), { inboundFetches := 1 })
         else
           (Except.ok chainAddressData, { inboundFetches := 1 })) := by
  unfold getInboundDataByChain
  rw [if_neg]
  intro hcond
  exact hne ((selfRoute_cond_iff env chain hplug).mp hcond)

/-- The route lookup never invokes a wallet capability nor the deposit
primitive. -/
theorem getInboundDataByChain_quiet (env : Env) (chain : Chain) :
    (getInboundDataByChain env chain).2.walletCalls = 0 ∧
    (getInboundDataByChain env chain).2.deposits = [] := by
  unfold getInboundDataByChain
  split
  · exact ⟨rfl, rfl⟩
  · split
    · exact ⟨rfl, rfl⟩
    · split <;> exact ⟨rfl, rfl⟩

/-! ## Claims -/

/-- C7: for every chain equal to the adapter's own protocol chain,
`resolveInboundRoute` (`getInboundDataByChain`) performs no network call
(`inboundFetches = 0` in the log, and the result does not depend on the
routing table) and returns the synthetic record with gas rate `"0"` and
`halted = false`, so it never fails for the self chain. -/
theorem claim_C7_selfRoute (env : Env) (chain : Chain)
    (hplug : env.pluginChain = Chain.Maya ∨ env.pluginChain = Chain.THORChain)
    (hself : chain = env.pluginChain) :
    getInboundDataByChain env chain =
      (Except.ok { chain := chain, gas_rate := some "0", router := "", address := "",
                   halted := false },
       { inboundFetches := 0, mimirFetches := 0, walletCalls := 0, deposits := [] }) := by
  unfold getInboundDataByChain
  rw [if_pos ((selfRoute_cond_iff env chain hplug).mpr hself)]

/-- Witness for C7 at a concrete THORChain environment. -/
theorem claim_C7_selfRoute_witness :
    getInboundDataByChain env0 Chain.THORChain =
      (Except.ok { chain := Chain.THORChain, gas_rate := some "0", router := "",
                   address := "", halted := false },
       { inboundFetches := 0, mimirFetches := 0, walletCalls := 0, deposits := [] }) :=
  claim_C7_selfRoute env0 Chain.THORChain (Or.inr rfl) rfl

/-- C2: for a chain different from the plugin chain, a missing routing entry
makes `getInboundDataByChain` fail with `core_inbound_data_not_found`
(`RouteNotFound`); a halted entry makes it fail with `core_chain_halted`
(`ChainHalted`); and consequently `depositToPool` on an asset of such a
halted chain fails with `core_chain_halted` with an empty deposit log — the
deposit primitive is never invoked. -/
theorem claim_C2_haltedRoute (env : Env) (chain : Chain)
    (hplug : env.pluginChain = Chain.Maya ∨ env.pluginChain = Chain.THORChain)
    (hne : chain ≠ env.pluginChain) :
    (env.inboundTable.find? (fun item => item.chain == chain) = none →
       getInboundDataByChain env chain =
         (Except.error (JsError.swapKit "core_inbound_data_not_found"),
          { inboundFetches := 1, deposits := [] }))
  ∧ (∀ d, env.inboundTable.find? (fun item => item.chain == chain) = some d →
       d.halted = true →
       getInboundDataByChain env chain =
         (Except.error (JsError.swapKit "core_chain_halted"),
          { inboundFetches := 1, deposits := [] }))
  ∧ (∀ d (a : AssetValue) (m : Memo) (k : FeeOption), a.chain = chain →
       env.inboundTable.find? (fun item => item.chain == chain) = some d →
       d.halted = true →
       depositToPool env a m k =
         (Except.error (JsError.swapKit "core_chain_halted"),
          { inboundFetches := 1, deposits := [] })) := by
  refine ⟨?_, ?_, ?_⟩
  · intro hfind
    rw [getInboundDataByChain_not_self env chain hplug hne, hfind]
  · intro d hfind hhalt
    rw [getInboundDataByChain_not_self env chain hplug hne, hfind]
    simp [hhalt]
  · intro d a m k hac hfind hhalt
    unfold depositToPool
    rw [hac, getInboundDataByChain_not_self env chain hplug hne, hfind]
    simp [hhalt]

/-- Witness for C2: empty table and halted BTC entry, concrete instances. -/
theorem claim_C2_haltedRoute_witness :
    (getInboundDataByChain envEmpty Chain.BTC =
       (Except.error (JsError.swapKit "core_inbound_data_not_found"),
        { inboundFetches := 1, deposits := [] }))
  ∧ (getInboundDataByChain envHalted Chain.BTC =
       (Except.error (JsError.swapKit "core_chain_halted"),
        { inboundFetches := 1, deposits := [] }))
  ∧ (depositToPool envHalted btcA (Memo.raw "m") FeeOption.Fast =
       (Except.error (JsError.swapKit "core_chain_halted"),
        { inboundFetches := 1, deposits := [] })) :=
  ⟨(claim_C2_haltedRoute envEmpty Chain.BTC (Or.inr rfl) (by decide)).1 rfl,
   (claim_C2_haltedRoute envHalted Chain.BTC (Or.inr rfl) (by decide)).2.1
     btcHaltedEntry rfl rfl,
   (claim_C2_haltedRoute envHalted Chain.BTC (Or.inr rfl) (by decide)).2.2
     btcHaltedEntry btcA (Memo.raw "m") FeeOption.Fast rfl rfl rfl⟩

/-- C1: when the inbound route of the asset's chain resolves and its
gas-rate string parses to `n`, `depositToPool` invokes the deposit primitive
with fee rate `n * gasFeeMultiplier[feeOptionKey]`, recipient the route's
inbound address, and the route's router passed through; the multipliers are
`Average ↦ 1.2`, `Fast ↦ 1.5`, `Fastest ↦ 2`, and an omitted fee-option key
defaults to `Fast`. -/
theorem claim_C1_depositToPool_feeRate (env : Env) (a : AssetValue) (m : Memo)
    (k : FeeOption) (r : InboundAddressData) (l : Log) (n : ℤ)
    (hroute : getInboundDataByChain env a.chain = (Except.ok r, l))
    (hparse : jsParseInt (r.gas_rate.getD "0") = some n) :
    (depositToPool env a m k =
       (env.depositImpl
          { assetValue := a, recipient := r.address, memo := m,
            router := some r.router,
            feeRate := some (some ((n : ℚ) * gasFeeMultiplier k)) },
        Log.app l
          { deposits := [{ assetValue := a, recipient := r.address, memo := m,
                           router := some r.router,
                           feeRate := some (some ((n : ℚ) * gasFeeMultiplier k)) }] }))
  ∧ depositToPool env a m = depositToPool env a m FeeOption.Fast
  ∧ gasFeeMultiplier FeeOption.Average = 6 / 5
  ∧ gasFeeMultiplier FeeOption.Fast = 3 / 2
  ∧ gasFeeMultiplier FeeOption.Fastest = 2 := by
  refine ⟨?_, rfl, rfl, rfl, rfl⟩
  unfold depositToPool
  simp only [hroute]
  rw [hparse]
  rfl

/-- Witness for C1 at the concrete BTC route of `env0` (gas rate `"10"`). -/
theorem claim_C1_depositToPool_feeRate_witness :
    depositToPool env0 btcA (Memo.raw "m") FeeOption.Average =
      (env0.depositImpl
         { assetValue := btcA, recipient := btcEntry.address, memo := Memo.raw "m",
           router := some btcEntry.router,
           feeRate := some (some (((10 : ℤ) : ℚ) * gasFeeMultiplier FeeOption.Average)) },
       Log.app (getInboundDataByChain env0 btcA.chain).2
         { deposits := [{ assetValue := btcA, recipient := btcEntry.address,
                          memo := Memo.raw "m", router := some btcEntry.router,
                          feeRate := some (some (((10 : ℤ) : ℚ) *
                            gasFeeMultiplier FeeOption.Average)) }] }) :=
  (claim_C1_depositToPool_feeRate env0 btcA (Memo.raw "m") FeeOption.Average
    btcEntry (getInboundDataByChain env0 btcA.chain).2 10 rfl rfl).1

/-- C4 fails as stated: the router lookup precedes the trivial-approval
shortcut, so for a gas-native, non-EVM asset on a halted chain `approve`
fails with `core_chain_halted` instead of returning `true`. -/
theorem claim_C4_counterexample :
    btcA.isGasAsset = true ∧ EVMChains.contains btcA.chain = false ∧
    approve envHalted ApproveMode.checkOnly btcA =
      (Except.error (JsError.swapKit "core_chain_halted"),
       { inboundFetches := 1, walletCalls := 0 }) ∧
    approve envHalted ApproveMode.approveM btcA =
      (Except.error (JsError.swapKit "core_chain_halted"),
       { inboundFetches := 1, walletCalls := 0 }) :=
  ⟨rfl, rfl, rfl, rfl⟩

/-- C4 (amended): provided the inbound-route lookup for the asset's chain
succeeds, `checkOrSetApproval` (`approve`) on a gas-native asset, a synthetic
asset, or an asset of a non-EVM chain returns `true` in `checkOnly` mode and
`"approved"` in approve mode, with no wallet capability invoked
(`walletCalls = 0`). -/
theorem claim_C4_trivialApproval (env : Env) (a : AssetValue)
    (r : InboundAddressData) (l : Log)
    (hroute : getInboundDataByChain env a.chain = (Except.ok r, l))
    (htriv : a.isGasAsset = true ∨ a.isSynthetic = true ∨
      EVMChains.contains a.chain = false) :
    approve env ApproveMode.checkOnly a = (Except.ok (ApproveResult.bool true), l)
  ∧ approve env ApproveMode.approveM a = (Except.ok (ApproveResult.str "approved"), l)
  ∧ (approve env ApproveMode.checkOnly a).2.walletCalls = 0
  ∧ (approve env ApproveMode.approveM a).2.walletCalls = 0 := by
  have hquiet := (getInboundDataByChain_quiet env a.chain).1
  rw [hroute] at hquiet
  have h1 : approve env ApproveMode.checkOnly a = (Except.ok (ApproveResult.bool true), l) := by
    unfold approve
    simp only [hroute]
    cases hc : EVMChains.contains a.chain <;> cases hg : a.isGasAsset <;>
      cases hs : a.isSynthetic <;> simp_all
  have h2 : approve env ApproveMode.approveM a = (Except.ok (ApproveResult.str "approved"), l) := by
    unfold approve
    simp only [hroute]
    cases hc : EVMChains.contains a.chain <;> cases hg : a.isGasAsset <;>
      cases hs : a.isSynthetic <;> simp_all
  exact ⟨h1, h2, by rw [h1]; exact hquiet, by rw [h2]; exact hquiet⟩

/-- Witness for the amended C4 at the healthy BTC route of `env0`. -/
theorem claim_C4_trivialApproval_witness :
    approve env0 ApproveMode.checkOnly btcA =
      (Except.ok (ApproveResult.bool true), (getInboundDataByChain env0 btcA.chain).2)
  ∧ approve env0 ApproveMode.approveM btcA =
      (Except.ok (ApproveResult.str "approved"), (getInboundDataByChain env0 btcA.chain).2)
  ∧ (approve env0 ApproveMode.checkOnly btcA).2.walletCalls = 0
  ∧ (approve env0 ApproveMode.approveM btcA).2.walletCalls = 0 :=
  claim_C4_trivialApproval env0 btcA btcEntry
    (getInboundDataByChain env0 btcA.chain).2 rfl (Or.inl rfl)

/-- C10: for an asset whose chain differs from the plugin chain, `approve`
resolves the inbound route before the trivial-approval shortcut, so a
missing entry fails both modes with `core_inbound_data_not_found` and a
halted entry fails both modes with `core_chain_halted`, for every asset —
in particular also gas-native, synthetic, or non-EVM ones — with no wallet
capability invoked (`walletCalls = 0` in the logged effect). -/
theorem claim_C10_approve_routeFirst (env : Env) (a : AssetValue) (ty : ApproveMode)
    (hplug : env.pluginChain = Chain.Maya ∨ env.pluginChain = Chain.THORChain)
    (hne : a.chain ≠ env.pluginChain) :
    (env.inboundTable.find? (fun item => item.chain == a.chain) = none →
       approve env ty a =
         (Except.error (JsError.swapKit "core_inbound_data_not_found"),
          { inboundFetches := 1, walletCalls := 0 }))
  ∧ (∀ d, env.inboundTable.find? (fun item => item.chain == a.chain) = some d →
       d.halted = true →
       approve env ty a =
         (Except.error (JsError.swapKit "core_chain_halted"),
          { inboundFetches := 1, walletCalls := 0 })) := by
  constructor
  · intro hfind
    unfold approve
    rw [getInboundDataByChain_not_self env a.chain hplug hne, hfind]
  · intro d hfind hhalt
    unfold approve
    rw [getInboundDataByChain_not_self env a.chain hplug hne, hfind]
    simp [hhalt]

/-- Witness for C10: missing and halted BTC routes, both modes. -/
theorem claim_C10_approve_routeFirst_witness :
    (approve envEmpty ApproveMode.checkOnly btcA =
       (Except.error (JsError.swapKit "core_inbound_data_not_found"),
        { inboundFetches := 1, walletCalls := 0 }))
  ∧ (approve envHalted ApproveMode.approveM btcA =
       (Except.error (JsError.swapKit "core_chain_halted"),
        { inboundFetches := 1, walletCalls := 0 })) :=
  ⟨(claim_C10_approve_routeFirst envEmpty btcA ApproveMode.checkOnly
      (Or.inr rfl) (by decide)).1 rfl,
   (claim_C10_approve_routeFirst envHalted btcA ApproveMode.approveM
      (Or.inr rfl) (by decide)).2 btcHaltedEntry rfl rfl⟩

/-- C6: when the mimir halt flags are clear (so the protocol deposit is
dispatched), an `unbond` node action deposits exactly one call whose memo
encodes the address and the asset value's numeric base-unit amount and whose
value is the protocol chain's minimum transferable amount; a `bond` action
deposits the provided asset value itself; and for every non-`bond` type the
deposited value is the protocol chain's minimum amount. -/
theorem claim_C6_nodeAction (env : Env) (a : AssetValue) (addr : String)
    (hm1 : env.mimir.HALTCHAINGLOBAL < 1) (hm2 : env.mimir.HALTTHORCHAIN < 1) :
    ((nodeAction env MemoType.UNBOND a addr).2.deposits =
       [{ assetValue := getMinAmountByChain env.pluginChain, recipient := "",
          memo := getMemoForUnbond addr a.bigintValue, router := none, feeRate := none }])
  ∧ ((nodeAction env MemoType.BOND a addr).2.deposits =
       [{ assetValue := a, recipient := "",
          memo := getMemoForLeaveAndBond MemoType.BOND addr, router := none,
          feeRate := none }])
  ∧ (∀ ty, ty ≠ MemoType.BOND →
       (nodeAction env ty a addr).2.deposits.map DepositCall.assetValue =
         [getMinAmountByChain env.pluginChain]) := by
  have hhalt : ¬(env.mimir.HALTCHAINGLOBAL ≥ 1 ∨ env.mimir.HALTTHORCHAIN ≥ 1) := by
    omega
  refine ⟨?_, ?_, ?_⟩
  · unfold nodeAction depositToProtocol
    rw [if_neg hhalt]
    rfl
  · unfold nodeAction depositToProtocol
    rw [if_neg hhalt]
    rfl
  · intro ty hty
    cases ty with
    | BOND => exact absurd rfl hty
    | UNBOND =>
      unfold nodeAction depositToProtocol
      rw [if_neg hhalt]
      rfl
    | LEAVE =>
      unfold nodeAction depositToProtocol
      rw [if_neg hhalt]
      rfl

/-- Witness for C6 at `env0` (mimir flags zero). -/
theorem claim_C6_nodeAction_witness :
    ((nodeAction env0 MemoType.UNBOND runeA "addr1").2.deposits =
       [{ assetValue := getMinAmountByChain env0.pluginChain, recipient := "",
          memo := getMemoForUnbond "addr1" runeA.bigintValue, router := none,
          feeRate := none }])
  ∧ ((nodeAction env0 MemoType.BOND runeA "addr1").2.deposits =
       [{ assetValue := runeA, recipient := "",
          memo := getMemoForLeaveAndBond MemoType.BOND "addr1", router := none,
          feeRate := none }])
  ∧ (∀ ty, ty ≠ MemoType.BOND →
       (nodeAction env0 ty runeA "addr1").2.deposits.map DepositCall.assetValue =
         [getMinAmountByChain env0.pluginChain]) :=
  claim_C6_nodeAction env0 runeA "addr1" (by decide) (by decide)

/-- C3 fails as stated for negative percent: `savings(type="withdraw",
percent=-1)` encodes basis points `min(10000, round(-1 * 100)) = -100`,
which does not lie in the interval `[0, 10000]` — the code clamps only from
above. -/
theorem claim_C3_counterexample :
    savings env0 { assetValue := btcA, memo := none, percent := -1,
                   ty := SavingsType.withdrawS } =
      depositToPool env0 (getMinAmountByChain Chain.BTC)
        (getMemoForSaverWithdraw (-100) "BTC" Chain.BTC) FeeOption.Fast
  ∧ min 10000 (jsRound ((-1 : ℚ) * 100)) = -100
  ∧ ¬(0 ≤ (-100 : ℤ)) := by
  have hbp : min 10000 (jsRound ((-1 : ℚ) * 100)) = -100 := by
    have hfloor : jsRound ((-1 : ℚ) * 100) = -100 := by
      unfold jsRound
      rw [Int.floor_eq_iff]
      norm_num
    rw [hfloor]
    norm_num
  refine ⟨?_, hbp, by norm_num⟩
  unfold savings
  simp only [hbp]
  rfl

/-- C3 (amended): for every nonnegative percent, `savings` with type
`"withdraw"` encodes basis points `min(10000, round(percent * 100))`, this
value lies in `[0, 10000]`, `percent = 150` encodes `10000`, and the
deposited value is the asset chain's minimum transferable amount rather than
the provided asset value.  (For negative percent the encoding formula still
holds but the value falls below 0; see the counterexample.) -/
theorem claim_C3_savingsWithdraw (env : Env) (a : AssetValue) (percent : ℚ)
    (hp : 0 ≤ percent) :
    (savings env { assetValue := a, memo := none, percent := percent,
                   ty := SavingsType.withdrawS } =
       depositToPool env (getMinAmountByChain a.chain)
         (getMemoForSaverWithdraw (min 10000 (jsRound (percent * 100))) a.symbol
           a.chain) FeeOption.Fast)
  ∧ 0 ≤ min 10000 (jsRound (percent * 100))
  ∧ min 10000 (jsRound (percent * 100)) ≤ 10000
  ∧ min 10000 (jsRound ((150 : ℚ) * 100)) = 10000 := by
  refine ⟨rfl, ?_, min_le_left _ _, ?_⟩
  · refine le_min (by norm_num) ?_
    unfold jsRound
    have : (0 : ℚ) ≤ percent * 100 + 1 / 2 := by positivity
    exact Int.floor_nonneg.mpr this
  · have hfloor : jsRound ((150 : ℚ) * 100) = 15000 := by
      unfold jsRound
      rw [Int.floor_eq_iff]
      norm_num
    rw [hfloor]
    norm_num

/-- Witness for the amended C3 at `percent = 2`. -/
theorem claim_C3_savingsWithdraw_witness :
    (savings env0 { assetValue := btcA, memo := none, percent := 2,
                    ty := SavingsType.withdrawS } =
       depositToPool env0 (getMinAmountByChain btcA.chain)
         (getMemoForSaverWithdraw (min 10000 (jsRound ((2 : ℚ) * 100))) btcA.symbol
           btcA.chain) FeeOption.Fast)
  ∧ 0 ≤ min 10000 (jsRound ((2 : ℚ) * 100))
  ∧ min 10000 (jsRound ((2 : ℚ) * 100)) ≤ 10000
  ∧ min 10000 (jsRound ((150 : ℚ) * 100)) = 10000 :=
  claim_C3_savingsWithdraw env0 btcA 2 (by norm_num)

/-- C5: in `createLiquidity` with both values strictly positive, a failing
base-leg pool deposit makes the whole call fail with the original cause
wrapped in `core_transaction_create_liquidity_base_error` and the asset
leg's effects never happen (the log is exactly the base leg's); a failing
asset-leg deposit after a successful base leg fails with the cause wrapped
in `core_transaction_create_liquidity_asset_error` while the base leg's
deposit has already been dispatched (its calls stay in the log — no
rollback). -/
theorem claim_C5_createLiquidity (env : Env) (b a : AssetValue)
    (hb : b.bigintValue > 0) (ha : a.bigintValue > 0) :
    (∀ e,
       (depositToPool env b (getMemoForDeposit a.chain a.symbol
          (getAddress env.wallets a.chain))).1 = Except.error e →
       createLiquidity env b a =
         (Except.error (JsError.wrapped "core_transaction_create_liquidity_base_error" e),
          (depositToPool env b (getMemoForDeposit a.chain a.symbol
             (getAddress env.wallets a.chain))).2))
  ∧ (∀ tx e,
       (depositToPool env b (getMemoForDeposit a.chain a.symbol
          (getAddress env.wallets a.chain))).1 = Except.ok tx →
       (depositToPool env a (getMemoForDeposit a.chain a.symbol
          (getAddress env.wallets env.pluginChain))).1 = Except.error e →
       createLiquidity env b a =
         (Except.error (JsError.wrapped "core_transaction_create_liquidity_asset_error" e),
          Log.app
            (depositToPool env b (getMemoForDeposit a.chain a.symbol
               (getAddress env.wallets a.chain))).2
            (depositToPool env a (getMemoForDeposit a.chain a.symbol
               (getAddress env.wallets env.pluginChain))).2)) := by
  have hguard : ¬(b.bigintValue ≤ 0 ∨ a.bigintValue ≤ 0) := by
    push_neg
    exact ⟨hb, ha⟩
  constructor
  · intro e herr
    rcases hdep : depositToPool env b (getMemoForDeposit a.chain a.symbol
        (getAddress env.wallets a.chain)) with ⟨r1, l1⟩
    rw [hdep] at herr
    simp only at herr
    subst herr
    unfold createLiquidity
    rw [if_neg hguard]
    simp only [hdep, wrapWithThrow]
  · intro tx e hok herr
    rcases hdep : depositToPool env b (getMemoForDeposit a.chain a.symbol
        (getAddress env.wallets a.chain)) with ⟨r1, l1⟩
    rw [hdep] at hok
    simp only at hok
    subst hok
    rcases hdep2 : depositToPool env a (getMemoForDeposit a.chain a.symbol
        (getAddress env.wallets env.pluginChain)) with ⟨r2, l2⟩
    rw [hdep2] at herr
    simp only at herr
    subst herr
    unfold createLiquidity
    rw [if_neg hguard]
    simp only [hdep, hdep2, wrapWithThrow]

/-- Witness for C5: the base leg throws in `envFailBase`; the base leg
succeeds and the asset leg throws in `envFailAsset`. -/
theorem claim_C5_createLiquidity_witness :
    (createLiquidity envFailBase runeA btcA =
       (Except.error (JsError.wrapped "core_transaction_create_liquidity_base_error"
          (JsError.external "boom")),
        (depositToPool envFailBase runeA (getMemoForDeposit btcA.chain btcA.symbol
           (getAddress envFailBase.wallets btcA.chain))).2))
  ∧ (createLiquidity envFailAsset runeA btcA =
       (Except.error (JsError.wrapped "core_transaction_create_liquidity_asset_error"
          (JsError.external "boom2")),
        Log.app
          (depositToPool envFailAsset runeA (getMemoForDeposit btcA.chain btcA.symbol
             (getAddress envFailAsset.wallets btcA.chain))).2
          (depositToPool envFailAsset btcA (getMemoForDeposit btcA.chain btcA.symbol
             (getAddress envFailAsset.wallets envFailAsset.pluginChain))).2)) :=
  ⟨(claim_C5_createLiquidity envFailBase runeA btcA (by decide) (by decide)).1
      (JsError.external "boom") rfl,
   (claim_C5_createLiquidity envFailAsset runeA btcA (by decide) (by decide)).2
      "txB" (JsError.external "boom2") rfl rfl⟩

/-- An ERC-20-style asset value with zero amount, used by the C8 witness. -/
def zeroA : AssetValue :=
  { chain := Chain.ETH, symbol := "USDC", ticker := "USDC", address := "0xusdc",
    isGasAsset := false, isSynthetic := false, bigintValue := 0 }

/-- C8: `addLiquidity` fails with
`core_transaction_add_liquidity_invalid_params` and performs no deposit
whenever neither the base transfer (`baseAssetValue > 0` and mode `sym` or
`baseAsset`) nor the asset transfer (`assetValue > 0` and mode `sym` or
`asset`) is active — in particular whenever both values are non-positive,
regardless of the mode. -/
theorem claim_C8_addLiquidity_invalidParams (env : Env) (b : Option AssetValue)
    (a : AssetValue) (baddr aaddr : String) (pend : Bool) (mode : LiquiditySide)
    (hbase : ¬((∃ v, b = some v ∧ v.bigintValue > 0) ∧
       (mode = LiquiditySide.sym ∨ mode = LiquiditySide.baseAsset)))
    (hasset : ¬(a.bigintValue > 0 ∧
       (mode = LiquiditySide.sym ∨ mode = LiquiditySide.asset))) :
    addLiquidity env { baseAssetValue := b, assetValue := a, baseAssetAddr := baddr,
                       assetAddr := aaddr, isPendingSymmAsset := pend, mode := mode } =
      (Except.error (JsError.swapKit "core_transaction_add_liquidity_invalid_params"),
       { deposits := [] }) := by
  have hbt : ((b.map (fun v => decide (v.bigintValue > 0))).getD false &&
      (decide (mode = LiquiditySide.sym) || decide (mode = LiquiditySide.baseAsset)))
      = false := by
    cases b with
    | none => simp
    | some v =>
      by_cases hv : v.bigintValue > 0
      · have hm : ¬(mode = LiquiditySide.sym ∨ mode = LiquiditySide.baseAsset) :=
          fun hm => hbase ⟨⟨v, rfl, hv⟩, hm⟩
        push_neg at hm
        simp [hv, hm.1, hm.2]
      · simp [hv]
  have hat : (decide (a.bigintValue > 0) &&
      (decide (mode = LiquiditySide.sym) || decide (mode = LiquiditySide.asset)))
      = false := by
    by_cases hv : a.bigintValue > 0
    · have hm : ¬(mode = LiquiditySide.sym ∨ mode = LiquiditySide.asset) :=
        fun hm => hasset ⟨hv, hm⟩
      push_neg at hm
      simp [hv, hm.1, hm.2]
    · simp [hv]
  unfold addLiquidity
  simp only [hbt, hat]
  rfl

/-- Witness for C8: no base value and a zero asset value in `sym` mode. -/
theorem claim_C8_addLiquidity_invalidParams_witness :
    addLiquidity env0 { baseAssetValue := none, assetValue := zeroA,
                        baseAssetAddr := "", assetAddr := "",
                        isPendingSymmAsset := false, mode := LiquiditySide.sym } =
      (Except.error (JsError.swapKit "core_transaction_add_liquidity_invalid_params"),
       { deposits := [] }) :=
  claim_C8_addLiquidity_invalidParams env0 none zeroA "" "" false LiquiditySide.sym
    (fun h => h.1.elim (fun _ hv => Option.noConfusion hv.1))
    (fun h => absurd h.1 (by decide))

/-- C9: `withdraw` from an `asset` position to `baseAsset` encodes the
protocol chain's native asset as the memo's target and transfers the asset
chain's minimum amount; when `from` and `to` are both `sym`, or `from` is
`baseAsset` or `asset` with `to` not `baseAsset`, no target asset is encoded
in the generated memo; and when `from` is not `asset` the transferred value
is the protocol chain's minimum amount. -/
theorem claim_C9_withdraw (env : Env) (a : AssetValue) (percent : ℚ)
    (fromS toS : LiquiditySide) :
    (withdraw env { memo := none, assetValue := a, percent := percent,
                    fromSide := LiquiditySide.asset,
                    toSide := LiquiditySide.baseAsset } =
       depositToPool env (getMinAmountByChain a.chain)
         (getMemoForWithdraw a.symbol a.chain a.ticker
           (min 10000 (jsRound (percent * 100)))
           (some (AssetValue.fromChain env.pluginChain).toString)) FeeOption.Fast)
  ∧ ((fromS = LiquiditySide.sym ∧ toS = LiquiditySide.sym) ∨
       ((fromS = LiquiditySide.baseAsset ∨ fromS = LiquiditySide.asset) ∧
        toS ≠ LiquiditySide.baseAsset) →
       withdraw env { memo := none, assetValue := a, percent := percent,
                      fromSide := fromS, toSide := toS } =
         depositToPool env
           (getMinAmountByChain
             (if fromS = LiquiditySide.asset then a.chain else env.pluginChain))
           (getMemoForWithdraw a.symbol a.chain a.ticker
             (min 10000 (jsRound (percent * 100))) none) FeeOption.Fast)
  ∧ (fromS ≠ LiquiditySide.asset →
       ∃ m, withdraw env { memo := none, assetValue := a, percent := percent,
                           fromSide := fromS, toSide := toS } =
         depositToPool env (getMinAmountByChain env.pluginChain) m FeeOption.Fast) := by
  refine ⟨rfl, ?_, ?_⟩
  · intro hcase
    rcases hcase with ⟨hf, ht⟩ | ⟨hf | hf, ht⟩
    · subst hf
      subst ht
      rfl
    · subst hf
      cases toS with
      | baseAsset => exact absurd rfl ht
      | sym => rfl
      | asset => rfl
    · subst hf
      cases toS with
      | baseAsset => exact absurd rfl ht
      | sym => rfl
      | asset => rfl
  · intro hfrom
    cases fromS with
    | asset => exact absurd rfl hfrom
    | sym => exact ⟨_, rfl⟩
    | baseAsset => exact ⟨_, rfl⟩

/-- Witness for C9 at `percent = 50` with concrete sides. -/
theorem claim_C9_withdraw_witness :
    (withdraw env0 { memo := none, assetValue := btcA, percent := 50,
                     fromSide := LiquiditySide.asset,
                     toSide := LiquiditySide.baseAsset } =
       depositToPool env0 (getMinAmountByChain btcA.chain)
         (getMemoForWithdraw btcA.symbol btcA.chain btcA.ticker
           (min 10000 (jsRound ((50 : ℚ) * 100)))
           (some (AssetValue.fromChain env0.pluginChain).toString)) FeeOption.Fast)
  ∧ (withdraw env0 { memo := none, assetValue := btcA, percent := 50,
                     fromSide := LiquiditySide.sym, toSide := LiquiditySide.sym } =
       depositToPool env0
         (getMinAmountByChain
           (if LiquiditySide.sym = LiquiditySide.asset then btcA.chain
            else env0.pluginChain))
         (getMemoForWithdraw btcA.symbol btcA.chain btcA.ticker
           (min 10000 (jsRound ((50 : ℚ) * 100))) none) FeeOption.Fast)
  ∧ (∃ m, withdraw env0 { memo := none, assetValue := btcA, percent := 50,
                          fromSide := LiquiditySide.sym,
                          toSide := LiquiditySide.sym } =
       depositToPool env0 (getMinAmountByChain env0.pluginChain) m FeeOption.Fast) :=
  ⟨(claim_C9_withdraw env0 btcA 50 LiquiditySide.sym LiquiditySide.sym).1,
   (claim_C9_withdraw env0 btcA 50 LiquiditySide.sym LiquiditySide.sym).2.1
     (Or.inl ⟨rfl, rfl⟩),
   (claim_C9_withdraw env0 btcA 50 LiquiditySide.sym LiquiditySide.sym).2.2
     (by decide)⟩

end SwapKit
